import Mathlib

/-!
Shallow embedding of the fastify_auth token-lifecycle core:
`src/services/auth.service.ts` (register, login, refreshToken,
validateAccessToken, logout), the JWT service (generateTokens,
verifyAccessToken, verifyRefreshToken), the refresh-token service
(createRefreshToken, getUserTokenVersion, cleanupExpiredTokens) and the
authentication middleware.

Modelling decisions, each keyed to the source:
* Time is a `Nat` (epoch milliseconds); every operation receives `now`
  explicitly, standing for the `new Date()` / `Date.now()` calls made
  during that operation.
* A JWT is modelled symbolically as a `Token`: a constructor tagging the
  claim set together with the secret, issuer and audience it was signed
  with, plus a `malformed` constructor for arbitrary non-JWT strings.
  `jwt.verify(token, secret, {issuer, audience})` succeeds exactly when
  the constructor, secret, issuer and audience match and the `exp` claim
  is still in the future; on failure both service wrappers throw
  `AuthenticationError` with a fixed message, which we model in
  `JwtService.verifyAccessToken` / `JwtService.verifyRefreshToken`.
* Fresh identifiers (record ids via Prisma `cuid()`, session ids via
  `Date.now()-Math.random()`, `jti` suffixes via
  `Date.now()/hrtime/Math.random()`) are drawn from the counter
  `DB.nextId`; in the source they are fresh with probability 1 and the
  database enforces uniqueness of `token` and `sessionId`. The `jti`
  strings keep the literal `access-`/`refresh-` prefixes of
  `generateTokens`.
* `bcrypt.hash` is modelled as the injective tag `hashPassword`;
  `bcrypt.compare` as equality with the tag. The claims under
  verification do not depend on the hash construction.
* `authService.refreshToken` wraps its body in
  `databaseService.prisma.$transaction(async (prisma) => ...)` and all of
  the body's writes go through the transaction client. Per Prisma's
  interactive-transaction semantics, an exception thrown from the
  callback aborts the transaction and rolls back every write it made.
  `AuthService.refreshTokenBody` is the callback with its writes threaded
  through the state, and `AuthService.refreshToken` applies the
  commit/rollback: on error the pre-call state is kept.
-/

namespace FastifyAuth

/-- Config JWT_SECRET (the access-token secret). -/
def accessSecret : String := "access-secret"

/-- Config JWT_REFRESH_SECRET (the refresh-token secret). -/
def refreshSecret : String := "refresh-secret"

/-- Fixed issuer embedded in every token: 'auth-api'. -/
def fixedIssuer : String := "auth-api"

/-- Fixed audience embedded in every token: 'auth-client'. -/
def fixedAudience : String := "auth-client"

/-- Access-token TTL: config JWT_EXPIRES_IN default '15m', in ms. -/
def accessTTL : Nat := 15 * 60 * 1000

/-- Refresh TTL: 7 days in ms (`expiry.setDate(expiry.getDate() + 7)` and
config JWT_REFRESH_EXPIRES_IN default '7d'). -/
def refreshTTL : Nat := 7 * 24 * 60 * 60 * 1000

/-- Claims of an access token: `{ userId, email, jti, exp }`
(types.ts JwtPayload; iat omitted, no check reads it). -/
structure AccessClaims where
  userId : String
  email : String
  jti : String
  exp : Nat
  deriving DecidableEq, Repr

/-- Claims of a refresh token: `{ userId, tokenVersion, jti, exp }`
(types.ts RefreshTokenPayload). -/
structure RefreshClaims where
  userId : String
  tokenVersion : Nat
  jti : String
  exp : Nat
  deriving DecidableEq, Repr

/-- A bearer-token string, modelled symbolically: the claim set plus the
secret/issuer/audience it was signed with, or a malformed string. -/
inductive Token where
  | access (claims : AccessClaims) (secret iss aud : String)
  | refresh (claims : RefreshClaims) (secret iss aud : String)
  | malformed (s : String)
  deriving DecidableEq, Repr

/-- A user row: `{ id, email, password }` (the hash). -/
structure User where
  id : String
  email : String
  passwordHash : String
  deriving DecidableEq, Repr

/-- A refreshToken row: `{ id, token, userId, tokenVersion, sessionId,
expiresAt }` (RefreshTokenData). `id` and `sessionId` are modelled as
counter-drawn naturals, standing for `cuid()` and the random session-id
string. -/
structure RefreshSessionRecord where
  id : Nat
  token : Token
  userId : String
  tokenVersion : Nat
  sessionId : Nat
  expiresAt : Nat
  deriving DecidableEq, Repr

/-- The access/refresh pair returned by `generateTokens` (AuthTokens). -/
structure AuthTokens where
  accessToken : Token
  refreshToken : Token
  deriving DecidableEq, Repr

/-- The error classes of utils/errors.ts that the modelled operations
throw, carrying their message. -/
inductive AuthErr where
  | authenticationError (msg : String)
  | validationError (msg : String)
  | conflictError (msg : String)
  deriving DecidableEq, Repr

/-- The Prisma-backed state: the user table, the refreshToken table and
the counter feeding every fresh identifier. -/
structure DB where
  users : List User
  sessions : List RefreshSessionRecord
  nextId : Nat
  deriving DecidableEq, Repr

/-- The empty database. -/
def emptyDB : DB := { users := [], sessions := [], nextId := 0 }

/-- Model of `bcrypt.hash` as an injective tag. -/
def hashPassword (s : String) : String := "hashed:" ++ s

/-- prisma.user.findUnique by id (userService.findUserById). -/
def findUserById (db : DB) (id : String) : Option User :=
  db.users.find? (fun u => decide (u.id = id))

/-- prisma.user.findUnique by email (userService.findUserByEmail; the
service lowercases the email, which the caller already did here). -/
def findUserByEmail (db : DB) (email : String) : Option User :=
  db.users.find? (fun u => decide (u.email = email))

/-- prisma.refreshToken.findUnique by token string. -/
def findByToken (db : DB) (tok : Token) : Option RefreshSessionRecord :=
  db.sessions.find? (fun r => decide (r.token = tok))

namespace JwtService

/-- jwtService.generateTokens: builds both claim sets with a shared fresh
suffix and distinct 'access-'/'refresh-' jti prefixes, signs the access
claims with the access secret at TTL 15m and the refresh claims with the
refresh secret at TTL 7d, both under the fixed issuer/audience. `uniq` is
the fresh draw standing for `Date.now()/hrtime/Math.random()`. -/
def generateTokens (userId email : String) (tokenVersion : Nat)
    (now uniq : Nat) : AuthTokens :=
  let suffix := Nat.repr uniq
  { accessToken := Token.access
      { userId := userId, email := email, jti := "access-" ++ suffix,
        exp := now + accessTTL } accessSecret fixedIssuer fixedAudience,
    refreshToken := Token.refresh
      { userId := userId, tokenVersion := tokenVersion,
        jti := "refresh-" ++ suffix, exp := now + refreshTTL }
      refreshSecret fixedIssuer fixedAudience }

/-- jwtService.verifyAccessToken: `jwt.verify` against the access secret
and the fixed issuer/audience; any failure (wrong constructor, wrong
secret/issuer/audience, expired) is caught and rethrown as
AuthenticationError('Invalid or expired access token'). -/
def verifyAccessToken (now : Nat) (tok : Token) :
    Except AuthErr AccessClaims :=
  match tok with
  | Token.access c secret iss aud =>
    if secret = accessSecret ∧ iss = fixedIssuer ∧ aud = fixedAudience ∧
        now < c.exp then
      Except.ok c
    else
      Except.error (AuthErr.authenticationError
        "Invalid or expired access token")
  | _ => Except.error (AuthErr.authenticationError
      "Invalid or expired access token")

/-- jwtService.verifyRefreshToken: `jwt.verify` against the refresh
secret and the fixed issuer/audience; any failure is caught and rethrown
as AuthenticationError('Invalid or expired refresh token'). -/
def verifyRefreshToken (now : Nat) (tok : Token) :
    Except AuthErr RefreshClaims :=
  match tok with
  | Token.refresh c secret iss aud =>
    if secret = refreshSecret ∧ iss = fixedIssuer ∧ aud = fixedAudience ∧
        now < c.exp then
      Except.ok c
    else
      Except.error (AuthErr.authenticationError
        "Invalid or expired refresh token")
  | _ => Except.error (AuthErr.authenticationError
      "Invalid or expired refresh token")

end JwtService

namespace RefreshTokenService

/-- refreshTokenService.cleanupExpiredTokens(userId):
`deleteMany where expiresAt < now AND userId = userId`. -/
def cleanupExpiredTokens (db : DB) (now : Nat) (userId : String) : DB :=
  { db with sessions := (db.sessions.filter
      (fun r => !(decide (r.expiresAt < now ∧ r.userId = userId)))) }

/-- refreshTokenService.createRefreshToken: purge the user's already
expired rows, then insert the new row (id drawn fresh). -/
def createRefreshToken (db : DB) (now : Nat) (token : Token)
    (userId : String) (tokenVersion : Nat) (sessionId : Nat)
    (expiresAt : Nat) : DB :=
  let db1 := cleanupExpiredTokens db now userId
  let newRecord : RefreshSessionRecord :=
    { id := db1.nextId, token := token, userId := userId,
      tokenVersion := tokenVersion, sessionId := sessionId,
      expiresAt := expiresAt }
  { db1 with sessions := db1.sessions ++ [newRecord],
             nextId := db1.nextId + 1 }

/-- refreshTokenService.getUserTokenVersion:
`findFirst where userId orderBy tokenVersion desc` (no expiry filter),
then `latestToken?.tokenVersion || 1` — the maximum tokenVersion over all
of the user's rows, and 1 when there is no row (or the stored maximum is
the JS-falsy 0). -/
def getUserTokenVersion (db : DB) (userId : String) : Nat :=
  match (db.sessions.filter
      (fun r => decide (r.userId = userId))).map
      (fun r => r.tokenVersion) with
  | [] => 1
  | v :: vs =>
    let m := vs.foldl max v
    if m = 0 then 1 else m

/-- refreshTokenService.deleteAllUserRefreshTokens:
`deleteMany where userId`. -/
def deleteAllUserRefreshTokens (db : DB) (userId : String) : DB :=
  { db with sessions := (db.sessions.filter
      (fun r => !(decide (r.userId = userId)))) }

end RefreshTokenService

namespace AuthService

/-- authService.register: createUser (conflict when the email exists,
insert otherwise; the format validation rejected earlier cannot reach the
session store), then generateTokens at version 1, then
createRefreshToken at version 1 with expiry now + 7d and a fresh
sessionId. -/
def register (db : DB) (now : Nat) (email password : String) :
    Except AuthErr (AuthTokens × DB) :=
  match findUserByEmail db email with
  | some _ =>
    Except.error (AuthErr.conflictError
      "User with this email already exists")
  | none =>
    let u : User := { id := "user-" ++ Nat.repr db.nextId, email := email,
                      passwordHash := hashPassword password }
    let db1 : DB := { db with users := db.users ++ [u],
                              nextId := db.nextId + 1 }
    let tokens := JwtService.generateTokens u.id u.email 1 now db1.nextId
    let sessionId := db1.nextId + 1
    let db2 : DB := { db1 with nextId := db1.nextId + 2 }
    Except.ok (tokens,
      RefreshTokenService.createRefreshToken db2 now tokens.refreshToken
        u.id 1 sessionId (now + refreshTTL))

/-- authService.login: reject empty credentials, find the user by email,
compare the password hash, read the current version with
getUserTokenVersion, generate tokens at that version and store a new
session row at that same version with expiry now + 7d. -/
def login (db : DB) (now : Nat) (email password : String) :
    Except AuthErr (AuthTokens × DB) :=
  if email = "" ∨ password = "" then
    Except.error (AuthErr.validationError "Email and password are required")
  else
    match findUserByEmail db email with
    | none =>
      Except.error (AuthErr.authenticationError "Invalid email or password")
    | some u =>
      if hashPassword password ≠ u.passwordHash then
        Except.error (AuthErr.authenticationError
          "Invalid email or password")
      else
        let tokenVersion := RefreshTokenService.getUserTokenVersion db u.id
        let tokens := JwtService.generateTokens u.id u.email tokenVersion
          now db.nextId
        let sessionId := db.nextId + 1
        let db1 : DB := { db with nextId := db.nextId + 2 }
        Except.ok (tokens,
          RefreshTokenService.createRefreshToken db1 now
            tokens.refreshToken u.id tokenVersion sessionId
            (now + refreshTTL))

/-- The callback passed to `prisma.$transaction` in
authService.refreshToken, with its writes threaded through the returned
state (which the wrapper below commits or rolls back): findUnique by
token, expiry check (delete the row on `expiresAt < now`, then throw),
JWT signature check, user-existence check, version-equality check, then
the rotation — version + 1, new pair, deleteMany for the user, one new
row with a fresh sessionId and expiry now + 7d. -/
def refreshTokenBody (db : DB) (now : Nat) (tok : Token) :
    Except AuthErr AuthTokens × DB :=
  match findByToken db tok with
  | none =>
    (Except.error (AuthErr.authenticationError
      "Invalid or expired refresh token"), db)
  | some stored =>
    if stored.expiresAt < now then
      (Except.error (AuthErr.authenticationError
        "Refresh token has expired"),
       { db with sessions := (db.sessions.filter
           (fun r => !(decide (r.id = stored.id)))) })
    else
      match JwtService.verifyRefreshToken now tok with
      | Except.error e => (Except.error e, db)
      | Except.ok payload =>
        match findUserById db payload.userId with
        | none =>
          (Except.error (AuthErr.authenticationError "User not found"), db)
        | some user =>
          if payload.tokenVersion ≠ stored.tokenVersion then
            (Except.error (AuthErr.authenticationError
              "Invalid refresh token version"), db)
          else
            let newTokenVersion := stored.tokenVersion + 1
            let tokens := JwtService.generateTokens user.id user.email
              newTokenVersion now db.nextId
            let newRecord : RefreshSessionRecord :=
              { id := db.nextId + 2, token := tokens.refreshToken,
                userId := user.id, tokenVersion := newTokenVersion,
                sessionId := db.nextId + 1,
                expiresAt := now + refreshTTL }
            (Except.ok tokens,
             { db with
                 sessions := (db.sessions.filter
                   (fun r => !(decide (r.userId = user.id)))) ++ [newRecord],
                 nextId := db.nextId + 3 })

/-- authService.refreshToken: the body above run inside
`prisma.$transaction` — a thrown error aborts the transaction and rolls
back the body's writes, so on error the pre-call state is kept; on
success the body's final state is committed. -/
def refreshToken (db : DB) (now : Nat) (tok : Token) :
    Except AuthErr AuthTokens × DB :=
  match refreshTokenBody db now tok with
  | (Except.ok t, db1) => (Except.ok t, db1)
  | (Except.error e, _) => (Except.error e, db)

/-- authService.logout: delete every refresh-token row of the user. -/
def logout (db : DB) (userId : String) : DB :=
  RefreshTokenService.deleteAllUserRefreshTokens db userId

/-- The try-block of authService.validateAccessToken before the catch:
verify the access token, then check the user still exists (throwing
AuthenticationError('User not found') when not), then return the
userId/email from the claims. -/
def validateAccessTokenTry (db : DB) (now : Nat) (tok : Token) :
    Except AuthErr (String × String) :=
  match JwtService.verifyAccessToken now tok with
  | Except.error e => Except.error e
  | Except.ok payload =>
    match findUserById db payload.userId with
    | none =>
      Except.error (AuthErr.authenticationError "User not found")
    | some _ => Except.ok (payload.userId, payload.email)

/-- authService.validateAccessToken: the try-block with its catch, which
rethrows every failure as
AuthenticationError('Invalid or expired access token'). -/
def validateAccessToken (db : DB) (now : Nat) (tok : Token) :
    Except AuthErr (String × String) :=
  match validateAccessTokenTry db now tok with
  | Except.ok r => Except.ok r
  | Except.error _ =>
    Except.error (AuthErr.authenticationError
      "Invalid or expired access token")

end AuthService

namespace AuthMiddleware

/-- Token selection of the middleware: the Authorization bearer token
first, else the accessToken cookie. -/
def pickToken (headerToken cookieToken : Option Token) : Option Token :=
  match headerToken with
  | some t => some t
  | none => cookieToken

/-- middleware/auth.middleware.ts authenticate: take the bearer token
from the Authorization header, falling back to the accessToken cookie;
with no token throw AuthenticationError('Access token required'), else
validate — and the surrounding catch rethrows every failure as
AuthenticationError('Invalid or expired access token'). -/
def authenticate (db : DB) (now : Nat)
    (headerToken cookieToken : Option Token) :
    Except AuthErr (String × String) :=
  match pickToken headerToken cookieToken with
  | none =>
    Except.error (AuthErr.authenticationError
      "Invalid or expired access token")
  | some t =>
    match AuthService.validateAccessToken db now t with
    | Except.ok r => Except.ok r
    | Except.error _ =>
      Except.error (AuthErr.authenticationError
        "Invalid or expired access token")

end AuthMiddleware

/-- jwtService.decodeToken, restricted to access tokens: read the claims
out of the token string without verifying anything. -/
def decodeAccessClaims (t : Token) : Option AccessClaims :=
  match t with
  | Token.access c _ _ _ => some c
  | _ => none

/-- jwtService.decodeToken, restricted to refresh tokens: read the claims
out of the token string without verifying anything. -/
def decodeRefreshClaims (t : Token) : Option RefreshClaims :=
  match t with
  | Token.refresh c _ _ _ => some c
  | _ => none

/-- The data-model invariant of the spec: every stored row's tokenVersion
column equals the tokenVersion claim decoded from the row's token
string. -/
def versionInvariant (db : DB) : Bool :=
  db.sessions.all (fun r =>
    decide ((decodeRefreshClaims r.token).map (fun c => c.tokenVersion) =
      some r.tokenVersion))

/-- The claim's reading of currentVersion, written from the spec's words
for comparison with `RefreshTokenService.getUserTokenVersion`: the
maximum tokenVersion among the user's LIVE (non-expired) records,
defaulting to 1 when the user has no live record. -/
def currentVersionLiveSpec (db : DB) (now : Nat) (userId : String) : Nat :=
  match (db.sessions.filter
      (fun r => decide (r.userId = userId ∧ now < r.expiresAt))).map
      (fun r => r.tokenVersion) with
  | [] => 1
  | v :: vs => vs.foldl max v

/-! Concrete fixtures used by witnesses and counterexamples. -/

/-- Claims of the sample refresh token: u1 at version 1, exp 100. -/
def sampleClaims : RefreshClaims :=
  { userId := "u1", tokenVersion := 1, jti := "refresh-9", exp := 100 }

/-- A live, correctly signed refresh token for user u1 at version 1. -/
def sampleTok : Token :=
  Token.refresh sampleClaims refreshSecret fixedIssuer fixedAudience

/-- The user u1. -/
def sampleUser : User :=
  { id := "u1", email := "u1@x.y", passwordHash := "hashed:pw" }

/-- The stored session row holding sampleTok, expiring at t=100. -/
def sampleRecord : RefreshSessionRecord :=
  { id := 0, token := sampleTok, userId := "u1", tokenVersion := 1,
    sessionId := 0, expiresAt := 100 }

/-- A database holding u1 and the live session row. -/
def sampleDB : DB :=
  { users := [sampleUser], sessions := [sampleRecord], nextId := 1 }

/-- A refresh token for u7 at version 5 whose stored row is expired. -/
def expiredTok : Token := Token.refresh
  { userId := "u7", tokenVersion := 5, jti := "refresh-3", exp := 10 }
  refreshSecret fixedIssuer fixedAudience

/-- The expired stored row for u7 (expiresAt = 10, version 5). -/
def expiredRecord : RefreshSessionRecord :=
  { id := 0, token := expiredTok, userId := "u7", tokenVersion := 5,
    sessionId := 0, expiresAt := 10 }

/-- A database whose only session row for u7 is expired (expiresAt = 10)
at tokenVersion 5. -/
def expiredVersionDB : DB :=
  { users := [{ id := "u7", email := "u7@x.y", passwordHash := "h" }],
    sessions := [expiredRecord], nextId := 1 }

/-- First row of twoVersionDB: user u, version 2. -/
def rowU2 : RefreshSessionRecord :=
  { id := 0,
    token := (Token.refresh
      { userId := "u", tokenVersion := 2, jti := "refresh-0", exp := 50 }
      refreshSecret fixedIssuer fixedAudience),
    userId := "u", tokenVersion := 2, sessionId := 0, expiresAt := 50 }

/-- Second row of twoVersionDB: user u, version 5. -/
def rowU5 : RefreshSessionRecord :=
  { id := 1,
    token := (Token.refresh
      { userId := "u", tokenVersion := 5, jti := "refresh-1", exp := 90 }
      refreshSecret fixedIssuer fixedAudience),
    userId := "u", tokenVersion := 5, sessionId := 1, expiresAt := 90 }

/-- Third row of twoVersionDB: user w, version 9. -/
def rowW9 : RefreshSessionRecord :=
  { id := 2,
    token := (Token.refresh
      { userId := "w", tokenVersion := 9, jti := "refresh-2", exp := 90 }
      refreshSecret fixedIssuer fixedAudience),
    userId := "w", tokenVersion := 9, sessionId := 2, expiresAt := 90 }

/-- A database with two rows for user u (versions 2 and 5) and one row
for another user at version 9. -/
def twoVersionDB : DB :=
  { users := [{ id := "u", email := "u@x.y", passwordHash := "h" }],
    sessions := [rowU2, rowU5, rowW9], nextId := 3 }

/-- The state after rotating sampleDB's live record at t=50. -/
def rotatedSampleDB : DB := (AuthService.refreshToken sampleDB 50 sampleTok).2

/-- Claims of an access token whose user does not exist in emptyDB. -/
def ghostClaims : AccessClaims :=
  { userId := "ghost", email := "g@x.y", jti := "access-0", exp := 100 }

/-- An access token whose user does not exist in emptyDB. -/
def ghostAccessTok : Token :=
  Token.access ghostClaims accessSecret fixedIssuer fixedAudience

/-! Helper lemmas shared by several claim proofs. -/

/-- Inversion of a successful refresh-token verification: the token is a
refresh token signed with the refresh secret under the fixed
issuer/audience, its claims are the returned payload, and it is
unexpired. -/
theorem verifyRefreshToken_ok_inv (now : Nat) (tok : Token)
    (p : RefreshClaims)
    (h : JwtService.verifyRefreshToken now tok = Except.ok p) :
    tok = Token.refresh p refreshSecret fixedIssuer fixedAudience ∧
      now < p.exp := by
  cases tok with
  | access c secret iss aud => simp [JwtService.verifyRefreshToken] at h
  | malformed s => simp [JwtService.verifyRefreshToken] at h
  | refresh c secret iss aud =>
    by_cases hc : secret = refreshSecret ∧ iss = fixedIssuer ∧
        aud = fixedAudience ∧ now < c.exp
    · obtain ⟨h1, h2, h3, h4⟩ := hc
      subst h1; subst h2; subst h3
      simp [JwtService.verifyRefreshToken, h4] at h
      subst h
      exact ⟨rfl, h4⟩
    · simp only [JwtService.verifyRefreshToken, if_neg hc] at h
      simp at h

/-- A user found by id carries that id. -/
theorem findUserById_id (db : DB) (i : String) (u : User)
    (h : findUserById db i = some u) : u.id = i := by
  have := List.find?_some h
  exact of_decide_eq_true this

/-- Folding max over a list bounds every element and lands on the seed or
on an element. -/
theorem foldl_max_facts (l : List Nat) (a : Nat) :
    a ≤ l.foldl max a ∧ (∀ x ∈ l, x ≤ l.foldl max a) ∧
      (l.foldl max a = a ∨ l.foldl max a ∈ l) := by
  induction l generalizing a with
  | nil => simp
  | cons b l ih =>
    obtain ⟨ih1, ih2, ih3⟩ := ih (max a b)
    simp only [List.foldl_cons]
    refine ⟨le_trans (le_max_left a b) ih1, ?_, ?_⟩
    · intro x hx
      rcases List.mem_cons.mp hx with rfl | h
      · exact le_trans (le_max_right a x) ih1
      · exact ih2 x h
    · rcases ih3 with h | h
      · rcases max_choice a b with hm | hm
        · exact Or.inl (h.trans hm)
        · exact Or.inr (List.mem_cons.mpr (Or.inl (h.trans hm)))
      · exact Or.inr (List.mem_cons.mpr (Or.inr h))

/-- The two jti strings of one generateTokens call are distinct: one
starts with 'access-', the other with 'refresh-'. -/
theorem accessTag_ne_refreshTag (s t : String) :
    ("access-" ++ s) ≠ ("refresh-" ++ t) := by
  obtain ⟨sl⟩ := s
  obtain ⟨tl⟩ := t
  intro h
  simp [String.ext_iff] at h

/-- When every check of refreshToken passes, the call computes exactly
the rotated result: version bumped by one, every row of the user
removed, one new row appended carrying the new refresh token, the
bumped version, the freshly drawn sessionId and expiry now + 7d. -/
theorem rotate_success_eq (db : DB) (now : Nat) (tok : Token)
    (stored : RefreshSessionRecord) (payload : RefreshClaims) (user : User)
    (hfind : findByToken db tok = some stored)
    (hlive : ¬ stored.expiresAt < now)
    (hver : JwtService.verifyRefreshToken now tok = Except.ok payload)
    (huser : findUserById db payload.userId = some user)
    (hv : payload.tokenVersion = stored.tokenVersion) :
    AuthService.refreshToken db now tok =
      (Except.ok (JwtService.generateTokens user.id user.email
        (stored.tokenVersion + 1) now db.nextId),
       { db with
           sessions := ((db.sessions.filter
             (fun r => !(decide (r.userId = user.id)))) ++
             [{ id := db.nextId + 2,
                token := (JwtService.generateTokens user.id user.email
                  (stored.tokenVersion + 1) now db.nextId).refreshToken,
                userId := user.id,
                tokenVersion := stored.tokenVersion + 1,
                sessionId := db.nextId + 1,
                expiresAt := now + refreshTTL }]),
           nextId := db.nextId + 3 }) := by
  have hnv : ¬ payload.tokenVersion ≠ stored.tokenVersion := by simp [hv]
  simp only [AuthService.refreshToken, AuthService.refreshTokenBody, hfind,
    hver, huser, if_neg hlive, if_neg hnv]

/-- createRefreshToken keeps the tokenVersion/claims invariant whenever
the inserted token's decoded version matches the inserted column. -/
theorem createRefreshToken_preserves (db : DB) (now : Nat) (token : Token)
    (userId : String) (tokenVersion sessionId expiresAt : Nat)
    (hinv : versionInvariant db = true)
    (htok : (decodeRefreshClaims token).map (fun c => c.tokenVersion) =
      some tokenVersion) :
    versionInvariant (RefreshTokenService.createRefreshToken db now token
      userId tokenVersion sessionId expiresAt) = true := by
  simp only [versionInvariant, List.all_eq_true, decide_eq_true_eq] at hinv ⊢
  intro r hr
  simp only [RefreshTokenService.createRefreshToken,
    RefreshTokenService.cleanupExpiredTokens, List.mem_append,
    List.mem_filter, List.mem_singleton] at hr
  rcases hr with ⟨hmem, _⟩ | hr1
  · exact hinv r hmem
  · subst hr1
    simpa using htok

/-! Claim theorems. -/

/-- C3. If refreshToken fails at any of its checks before the ROTATE
writes (lookup, expiry, signature, user existence, version equality),
the committed state — user table and session table — is exactly the
pre-call state: the `$transaction` rolls back any write the aborted body
made. -/
theorem rotate_failure_no_mutation (db : DB) (now : Nat) (tok : Token)
    (e : AuthErr) (db2 : DB)
    (h : AuthService.refreshToken db now tok = (Except.error e, db2)) :
    db2 = db := by
  unfold AuthService.refreshToken at h
  rcases hb : AuthService.refreshTokenBody db now tok with ⟨r, dbx⟩
  rw [hb] at h
  cases r with
  | ok t => simp at h
  | error e2 =>
    simp only [Prod.mk.injEq] at h
    exact h.2.symm

/-- Witness for C3: a failing lookup on the empty database leaves the
state unchanged. -/
theorem rotate_failure_no_mutation_witness :
    (AuthService.refreshToken emptyDB 0 (Token.malformed "x") =
      (Except.error (AuthErr.authenticationError
        "Invalid or expired refresh token"), emptyDB)) ∧
    emptyDB = emptyDB :=
  ⟨rfl, rotate_failure_no_mutation emptyDB 0 (Token.malformed "x") _ emptyDB rfl⟩

/-- C4. Evaluating the code on a stored-but-expired record: the call
fails with 'Refresh token has expired', the transaction callback's own
(uncommitted) state did delete the row, but the committed state still
holds it — the throw rolled the delete back, so the expired record
survives, contrary to the claim and to the code's stated intent. -/
theorem rotate_expired_record_survives :
    AuthService.refreshToken expiredVersionDB 2000 expiredTok =
      (Except.error (AuthErr.authenticationError "Refresh token has expired"),
       expiredVersionDB) ∧
    (AuthService.refreshTokenBody expiredVersionDB 2000 expiredTok).2.sessions
      = [] ∧
    expiredVersionDB.sessions = [expiredRecord] ∧
    findByToken expiredVersionDB expiredTok = some expiredRecord := by
  refine ⟨rfl, rfl, rfl, rfl⟩

/-- C8. generateTokens yields a pair whose decoded claims exactly match
the inputs — userId and email in the access claims, userId and version
in the refresh claims — and whose jti values are distinct. -/
theorem generateTokens_claims_exact (userId email : String)
    (v now uniq : Nat) :
    ∃ a rc,
      decodeAccessClaims
        (JwtService.generateTokens userId email v now uniq).accessToken =
        some a ∧
      decodeRefreshClaims
        (JwtService.generateTokens userId email v now uniq).refreshToken =
        some rc ∧
      a.userId = userId ∧ a.email = email ∧ rc.userId = userId ∧
      rc.tokenVersion = v ∧ a.jti ≠ rc.jti := by
  refine ⟨_, _, rfl, rfl, rfl, rfl, rfl, rfl, ?_⟩
  exact accessTag_ne_refreshTag (Nat.repr uniq) (Nat.repr uniq)

/-- C9. A correctly signed, unexpired access token whose user no longer
exists: the validation pipeline fails at the user-existence check (the
UserNotFound cause, thrown as AuthenticationError('User not found')),
and the catch surfaces it as an authentication failure. -/
theorem authenticate_deleted_user_fails (db : DB) (now : Nat)
    (c : AccessClaims)
    (hexp : now < c.exp)
    (hgone : findUserById db c.userId = none) :
    AuthService.validateAccessTokenTry db now
        (Token.access c accessSecret fixedIssuer fixedAudience) =
      Except.error (AuthErr.authenticationError "User not found") ∧
    AuthService.validateAccessToken db now
        (Token.access c accessSecret fixedIssuer fixedAudience) =
      Except.error (AuthErr.authenticationError
        "Invalid or expired access token") := by
  constructor
  · simp [AuthService.validateAccessTokenTry, JwtService.verifyAccessToken,
      hexp, hgone]
  · simp [AuthService.validateAccessToken, AuthService.validateAccessTokenTry,
      JwtService.verifyAccessToken, hexp, hgone]

/-- Witness for C9: the ghost user's token on the empty database. -/
theorem authenticate_deleted_user_fails_witness :
    ((0:Nat) < ghostClaims.exp) ∧
    (findUserById emptyDB ghostClaims.userId = none) ∧
    (AuthService.validateAccessTokenTry emptyDB 0
        (Token.access ghostClaims accessSecret fixedIssuer fixedAudience) =
      Except.error (AuthErr.authenticationError "User not found") ∧
    AuthService.validateAccessToken emptyDB 0
        (Token.access ghostClaims accessSecret fixedIssuer fixedAudience) =
      Except.error (AuthErr.authenticationError
        "Invalid or expired access token")) :=
  ⟨by decide, rfl,
    authenticate_deleted_user_fails emptyDB 0 ghostClaims (by decide) rfl⟩

/-- C10. Every failure of validateAccessToken, and of the authenticate
middleware, surfaces as the single error AuthenticationError with the
one fixed message 'Invalid or expired access token' — expired, malformed,
foreign-secret and deleted-user causes are indistinguishable to the
caller. -/
theorem auth_failure_single_error :
    (∀ (db : DB) (now : Nat) (tok : Token) (e : AuthErr),
      AuthService.validateAccessToken db now tok = Except.error e →
      e = AuthErr.authenticationError "Invalid or expired access token") ∧
    (∀ (db : DB) (now : Nat) (ht ct : Option Token) (e : AuthErr),
      AuthMiddleware.authenticate db now ht ct = Except.error e →
      e = AuthErr.authenticationError "Invalid or expired access token") := by
  constructor
  · intro db now tok e h
    unfold AuthService.validateAccessToken at h
    split at h
    · simp at h
    · simp only [Except.error.injEq] at h
      exact h.symm
  · intro db now ht ct e h
    unfold AuthMiddleware.authenticate at h
    rcases hp : AuthMiddleware.pickToken ht ct with _ | t <;> rw [hp] at h
    · simp only [Except.error.injEq] at h
      exact h.symm
    · simp only [] at h
      split at h
      · simp at h
      · simp only [Except.error.injEq] at h
        exact h.symm

/-- C1. When a stored record passes every check of refreshToken —
lookup, expiry, signature, user existence, version equality — the ROTATE
step commits exactly: new version = record.tokenVersion + 1, every
session row of that user deleted, exactly one new row appended carrying
the new refresh token, the new version, a sessionId fresh with respect
to the pre-state, and expiresAt = now + refreshTTL; and the new
access/refresh pair is returned. -/
theorem rotate_step_exact (db : DB) (now : Nat) (tok : Token)
    (stored : RefreshSessionRecord) (payload : RefreshClaims) (user : User)
    (hfind : findByToken db tok = some stored)
    (hlive : ¬ stored.expiresAt < now)
    (hver : JwtService.verifyRefreshToken now tok = Except.ok payload)
    (huser : findUserById db payload.userId = some user)
    (hv : payload.tokenVersion = stored.tokenVersion)
    (hsid : ∀ r ∈ db.sessions, r.sessionId < db.nextId) :
    (AuthService.refreshToken db now tok =
      (Except.ok (JwtService.generateTokens user.id user.email
        (stored.tokenVersion + 1) now db.nextId),
       { db with
           sessions := ((db.sessions.filter
             (fun r => !(decide (r.userId = user.id)))) ++
             [{ id := db.nextId + 2,
                token := (JwtService.generateTokens user.id user.email
                  (stored.tokenVersion + 1) now db.nextId).refreshToken,
                userId := user.id,
                tokenVersion := stored.tokenVersion + 1,
                sessionId := db.nextId + 1,
                expiresAt := now + refreshTTL }]),
           nextId := db.nextId + 3 })) ∧
    (∀ r ∈ db.sessions, r.sessionId ≠ db.nextId + 1) := by
  refine ⟨rotate_success_eq db now tok stored payload user hfind hlive hver
    huser hv, ?_⟩
  intro r hr
  have := hsid r hr
  omega

/-- Witness for C1: the sample database rotating its live record. -/
theorem rotate_step_exact_witness :
    (findByToken sampleDB sampleTok = some sampleRecord) ∧
    (¬ sampleRecord.expiresAt < 50) ∧
    (JwtService.verifyRefreshToken 50 sampleTok = Except.ok sampleClaims) ∧
    (findUserById sampleDB sampleClaims.userId = some sampleUser) ∧
    (sampleClaims.tokenVersion = sampleRecord.tokenVersion) ∧
    (∀ r ∈ sampleDB.sessions, r.sessionId < sampleDB.nextId) ∧
    ((AuthService.refreshToken sampleDB 50 sampleTok =
      (Except.ok (JwtService.generateTokens sampleUser.id sampleUser.email
        (sampleRecord.tokenVersion + 1) 50 sampleDB.nextId),
       { sampleDB with
           sessions := ((sampleDB.sessions.filter
             (fun r => !(decide (r.userId = sampleUser.id)))) ++
             [{ id := sampleDB.nextId + 2,
                token := (JwtService.generateTokens sampleUser.id
                  sampleUser.email (sampleRecord.tokenVersion + 1) 50
                  sampleDB.nextId).refreshToken,
                userId := sampleUser.id,
                tokenVersion := sampleRecord.tokenVersion + 1,
                sessionId := sampleDB.nextId + 1,
                expiresAt := 50 + refreshTTL }]),
           nextId := sampleDB.nextId + 3 })) ∧
    (∀ r ∈ sampleDB.sessions, r.sessionId ≠ sampleDB.nextId + 1)) :=
  ⟨rfl, by decide, rfl, rfl, rfl, by decide,
    rotate_step_exact sampleDB 50 sampleTok sampleRecord sampleClaims
      sampleUser rfl (by decide) rfl rfl rfl (by decide)⟩

/-- C2. Rotating a live, valid refresh token twice: the first call
succeeds with a new pair and a new state, and the second call on that
state fails with SessionNotFound ('Invalid or expired refresh token'),
issuing nothing and leaving the state untouched. -/
theorem rotate_replay_blocked (db : DB) (now : Nat) (tok : Token)
    (stored : RefreshSessionRecord) (payload : RefreshClaims) (user : User)
    (hfind : findByToken db tok = some stored)
    (hlive : ¬ stored.expiresAt < now)
    (hver : JwtService.verifyRefreshToken now tok = Except.ok payload)
    (huser : findUserById db payload.userId = some user)
    (hv : payload.tokenVersion = stored.tokenVersion)
    (hUniq : ∀ r ∈ db.sessions, r.token = tok → r = stored)
    (hOwn : stored.userId = payload.userId) :
    ∃ tokens db2,
      AuthService.refreshToken db now tok = (Except.ok tokens, db2) ∧
      ∀ now2, AuthService.refreshToken db2 now2 tok =
        (Except.error (AuthErr.authenticationError
          "Invalid or expired refresh token"), db2) := by
  obtain ⟨htok, hexp⟩ := verifyRefreshToken_ok_inv now tok payload hver
  have huid : user.id = payload.userId :=
    findUserById_id db payload.userId user huser
  refine ⟨_, _, rotate_success_eq db now tok stored payload user hfind hlive
    hver huser hv, ?_⟩
  intro now2
  have hnone : findByToken
      { db with
          sessions := ((db.sessions.filter
            (fun r => !(decide (r.userId = user.id)))) ++
            [{ id := db.nextId + 2,
               token := (JwtService.generateTokens user.id user.email
                 (stored.tokenVersion + 1) now db.nextId).refreshToken,
               userId := user.id,
               tokenVersion := stored.tokenVersion + 1,
               sessionId := db.nextId + 1,
               expiresAt := now + refreshTTL }]),
          nextId := db.nextId + 3 } tok = none := by
    rw [findByToken, List.find?_eq_none]
    intro r hr
    simp only [decide_eq_true_eq]
    rcases List.mem_append.mp hr with hf | hs
    · obtain ⟨hmem, hpf⟩ := List.mem_filter.mp hf
      have hru : r.userId ≠ user.id := by simpa using hpf
      intro heq
      have := hUniq r hmem heq
      subst this
      exact hru (hOwn.trans huid.symm)
    · have hr1 : r = _ := List.mem_singleton.mp hs
      subst hr1
      intro heq
      rw [htok] at heq
      have hvv := congrArg (fun t => (decodeRefreshClaims t).map
        (fun c => c.tokenVersion)) heq
      simp [decodeRefreshClaims, JwtService.generateTokens] at hvv
      omega
  simp [AuthService.refreshToken, AuthService.refreshTokenBody, hnone]

/-- Witness for C2: the sample database; after rotating its only live
record, presenting the consumed token again fails. -/
theorem rotate_replay_blocked_witness :
    (findByToken sampleDB sampleTok = some sampleRecord) ∧
    (¬ sampleRecord.expiresAt < 50) ∧
    (JwtService.verifyRefreshToken 50 sampleTok = Except.ok sampleClaims) ∧
    (findUserById sampleDB sampleClaims.userId = some sampleUser) ∧
    (sampleClaims.tokenVersion = sampleRecord.tokenVersion) ∧
    (∀ r ∈ sampleDB.sessions, r.token = sampleTok → r = sampleRecord) ∧
    (sampleRecord.userId = sampleClaims.userId) ∧
    (∃ tokens db2,
      AuthService.refreshToken sampleDB 50 sampleTok =
        (Except.ok tokens, db2) ∧
      ∀ now2, AuthService.refreshToken db2 now2 sampleTok =
        (Except.error (AuthErr.authenticationError
          "Invalid or expired refresh token"), db2)) :=
  ⟨rfl, by decide, rfl, rfl, rfl, by decide, rfl,
    rotate_replay_blocked sampleDB 50 sampleTok sampleRecord sampleClaims
      sampleUser rfl (by decide) rfl rfl rfl (by decide) rfl⟩

/-- C6. Each session-creating operation — register, login, refreshToken
— signs the stored refresh token with the same version it persists, so
the invariant 'record.tokenVersion equals the tokenVersion claim decoded
from record.token' is preserved by all three. -/
theorem tokenVersion_claim_invariant :
    (∀ (db : DB) (now : Nat) (email pw : String) (tokens : AuthTokens)
      (db2 : DB), versionInvariant db = true →
      AuthService.register db now email pw = Except.ok (tokens, db2) →
      versionInvariant db2 = true) ∧
    (∀ (db : DB) (now : Nat) (email pw : String) (tokens : AuthTokens)
      (db2 : DB), versionInvariant db = true →
      AuthService.login db now email pw = Except.ok (tokens, db2) →
      versionInvariant db2 = true) ∧
    (∀ (db : DB) (now : Nat) (tok : Token) (tokens : AuthTokens) (db2 : DB),
      versionInvariant db = true →
      AuthService.refreshToken db now tok = (Except.ok tokens, db2) →
      versionInvariant db2 = true) := by
  refine ⟨?_, ?_, ?_⟩
  · intro db now email pw tokens db2 hinv hreg
    unfold AuthService.register at hreg
    split at hreg
    · simp at hreg
    · simp only [Except.ok.injEq, Prod.mk.injEq] at hreg
      obtain ⟨h1, h2⟩ := hreg
      subst h2
      refine createRefreshToken_preserves _ now _ _ 1 _ _ ?_ ?_
      · exact hinv
      · simp [JwtService.generateTokens, decodeRefreshClaims]
  · intro db now email pw tokens db2 hinv hlog
    unfold AuthService.login at hlog
    split at hlog
    · simp at hlog
    · split at hlog
      · simp at hlog
      · split at hlog
        · simp at hlog
        · simp only [Except.ok.injEq, Prod.mk.injEq] at hlog
          obtain ⟨h1, h2⟩ := hlog
          subst h2
          refine createRefreshToken_preserves _ now _ _ _ _ _ ?_ ?_
          · exact hinv
          · simp [JwtService.generateTokens, decodeRefreshClaims]
  · intro db now tok tokens db2 hinv hrot
    unfold AuthService.refreshToken at hrot
    rcases hb : AuthService.refreshTokenBody db now tok with ⟨r, dbx⟩
    rw [hb] at hrot
    cases r with
    | error e => simp at hrot
    | ok t =>
      simp only [Prod.mk.injEq, Except.ok.injEq] at hrot
      obtain ⟨h1, h2⟩ := hrot
      subst h2
      unfold AuthService.refreshTokenBody at hb
      split at hb
      · simp at hb
      · split at hb
        · simp at hb
        · split at hb
          · simp at hb
          · split at hb
            · simp at hb
            · split at hb
              · simp at hb
              · simp only [Prod.mk.injEq, Except.ok.injEq] at hb
                obtain ⟨hb1, hb2⟩ := hb
                rw [← hb2]
                simp only [versionInvariant, List.all_eq_true,
                  decide_eq_true_eq] at hinv ⊢
                intro r hr
                simp only [List.mem_append, List.mem_filter,
                  List.mem_singleton] at hr
                rcases hr with ⟨hmem, _⟩ | hr1
                · exact hinv r hmem
                · subst hr1
                  simp [JwtService.generateTokens, decodeRefreshClaims]

/-- Witness for C6: rotating the sample database preserves the
invariant. -/
theorem tokenVersion_claim_invariant_witness :
    (versionInvariant sampleDB = true) ∧
    (AuthService.refreshToken sampleDB 50 sampleTok =
      (Except.ok (JwtService.generateTokens sampleUser.id sampleUser.email
        2 50 1), rotatedSampleDB)) ∧
    (versionInvariant rotatedSampleDB = true) :=
  ⟨by decide, rfl,
    tokenVersion_claim_invariant.2.2 sampleDB 50 sampleTok _ rotatedSampleDB
      (by decide) rfl⟩

/-- C7 counterexample. getUserTokenVersion has no liveness filter: on a
database whose only row for u7 is expired (every row is past expiry at
t=20), the code returns that row's version 5, while the claimed
max-over-live-records-defaulting-to-1 yields 1. -/
theorem currentVersion_ignores_expiry_cex :
    (∀ r ∈ expiredVersionDB.sessions, r.expiresAt ≤ 20) ∧
    RefreshTokenService.getUserTokenVersion expiredVersionDB "u7" = 5 ∧
    currentVersionLiveSpec expiredVersionDB 20 "u7" = 1 ∧
    RefreshTokenService.getUserTokenVersion expiredVersionDB "u7" ≠
      currentVersionLiveSpec expiredVersionDB 20 "u7" := by
  refine ⟨by decide, rfl, rfl, by decide⟩

/-- C7 amended. getUserTokenVersion returns the maximum tokenVersion
over ALL of the user's stored rows, expired rows included, and 1 when
the user has no row at all (versions in reachable states are at least
1). -/
theorem currentVersion_max_all_records (db : DB) (userId : String)
    (hpos : ∀ r ∈ db.sessions, 1 ≤ r.tokenVersion) :
    ((db.sessions.filter (fun r => decide (r.userId = userId))) = [] →
      RefreshTokenService.getUserTokenVersion db userId = 1) ∧
    (∀ r ∈ db.sessions, r.userId = userId →
      r.tokenVersion ≤ RefreshTokenService.getUserTokenVersion db userId) ∧
    ((db.sessions.filter (fun r => decide (r.userId = userId))) ≠ [] →
      ∃ r ∈ db.sessions, r.userId = userId ∧
        RefreshTokenService.getUserTokenVersion db userId =
          r.tokenVersion) := by
  rcases hl : db.sessions.filter (fun r => decide (r.userId = userId)) with
    _ | ⟨a, as⟩
  · refine ⟨fun _ => ?_, ?_, fun hne => absurd hl hne⟩
    · unfold RefreshTokenService.getUserTokenVersion
      rw [hl]
      simp
    · intro r hr hru
      have : r ∈ db.sessions.filter (fun r => decide (r.userId = userId)) :=
        List.mem_filter.mpr ⟨hr, by simpa using hru⟩
      rw [hl] at this
      simp at this
  · have hga : RefreshTokenService.getUserTokenVersion db userId =
        (as.map (fun r => r.tokenVersion)).foldl max a.tokenVersion := by
      unfold RefreshTokenService.getUserTokenVersion
      rw [hl]
      simp only [List.map_cons]
      have hamem : a ∈ db.sessions := by
        have : a ∈ db.sessions.filter
            (fun r => decide (r.userId = userId)) := by
          rw [hl]; exact List.mem_cons_self a as
        exact (List.mem_filter.mp this).1
      have h1a : 1 ≤ a.tokenVersion := hpos a hamem
      obtain ⟨hle, _, _⟩ :=
        foldl_max_facts (as.map (fun r => r.tokenVersion)) a.tokenVersion
      have hm0 : ¬ ((as.map (fun r => r.tokenVersion)).foldl max
          a.tokenVersion = 0) := by omega
      simp only [if_neg hm0]
    obtain ⟨hle, hall, hmem⟩ :=
      foldl_max_facts (as.map (fun r => r.tokenVersion)) a.tokenVersion
    refine ⟨?_, ?_, fun _ => ?_⟩
    · intro h0
      rw [h0] at hl
      simp at hl
    · intro r hr hru
      have hrl : r ∈ db.sessions.filter
          (fun r => decide (r.userId = userId)) :=
        List.mem_filter.mpr ⟨hr, by simpa using hru⟩
      rw [hl] at hrl
      rw [hga]
      rcases List.mem_cons.mp hrl with rfl | htail
      · exact hle
      · exact hall r.tokenVersion (List.mem_map.mpr ⟨r, htail, rfl⟩)
    · rcases hmem with heq | hin
      · refine ⟨a, ?_, ?_, by rw [hga, heq]⟩
        · have : a ∈ db.sessions.filter
              (fun r => decide (r.userId = userId)) := by
            rw [hl]; exact List.mem_cons_self a as
          exact (List.mem_filter.mp this).1
        · have : a ∈ db.sessions.filter
              (fun r => decide (r.userId = userId)) := by
            rw [hl]; exact List.mem_cons_self a as
          simpa using (List.mem_filter.mp this).2
      · obtain ⟨r, hras, hrv⟩ := List.mem_map.mp hin
        have hrl : r ∈ db.sessions.filter
            (fun r => decide (r.userId = userId)) := by
          rw [hl]; exact List.mem_cons.mpr (Or.inr hras)
        refine ⟨r, (List.mem_filter.mp hrl).1, ?_, by rw [hga, hrv]⟩
        simpa using (List.mem_filter.mp hrl).2

/-- Witness for the amended C7: the database with versions 2 and 5 for
user u and 9 for another user — the result is 5. -/
theorem currentVersion_max_all_records_witness :
    (∀ r ∈ twoVersionDB.sessions, 1 ≤ r.tokenVersion) ∧
    (((twoVersionDB.sessions.filter
        (fun r => decide (r.userId = "u"))) = [] →
      RefreshTokenService.getUserTokenVersion twoVersionDB "u" = 1) ∧
    (∀ r ∈ twoVersionDB.sessions, r.userId = "u" →
      r.tokenVersion ≤
        RefreshTokenService.getUserTokenVersion twoVersionDB "u") ∧
    ((twoVersionDB.sessions.filter
        (fun r => decide (r.userId = "u"))) ≠ [] →
      ∃ r ∈ twoVersionDB.sessions, r.userId = "u" ∧
        RefreshTokenService.getUserTokenVersion twoVersionDB "u" =
          r.tokenVersion)) :=
  ⟨by decide, currentVersion_max_all_records twoVersionDB "u" (by decide)⟩

/-- Witness for C10: a malformed token on the empty database. -/
theorem auth_failure_single_error_witness :
    (AuthService.validateAccessToken emptyDB 0 (Token.malformed "x") =
      Except.error (AuthErr.authenticationError
        "Invalid or expired access token")) ∧
    (AuthErr.authenticationError "Invalid or expired access token" =
      AuthErr.authenticationError "Invalid or expired access token") :=
  ⟨rfl, auth_failure_single_error.1 emptyDB 0 (Token.malformed "x") _ rfl⟩

end FastifyAuth
